import Mathlib

/-!
# Verification of `oauth_open_inviter/oauth_access/access.py`

A shallow embedding of the OAuth flow engine in
`src/oauth_open_inviter/oauth_access/access.py`.  Pure response-handling
logic is translated into Lean functions; the stateful flow object is
modelled by explicit state passing (the token attributes before and after
each call); the HTTP transport, JSON/XML/query-string parsers and the
multipart encoder are external collaborators, passed in as function
parameters.  Python dictionaries are modelled as association lists with
unique-key-preserving insert (`dinsert`), matching `d[k] = v`, `d.pop(k)`
and `d.get(k)` semantics.
-/

namespace OauthAccess

/-- Python dict lookup `d.get(k)` / `k in d`: first binding of the key. -/
def dlookup : List (String × String) → String → Option String
  | [], _ => none
  | (k', v') :: rest, k => if k' = k then some v' else dlookup rest k

/-- Python dict assignment `d[k] = v`: replace the binding in place if the
key is present, otherwise append it. -/
def dinsert : List (String × String) → String → String → List (String × String)
  | [], k, v => [(k, v)]
  | (k', v') :: rest, k, v =>
    if k' = k then (k, v) :: rest else (k', v') :: dinsert rest k v

/-- Python dict `d.pop(k)` (removal part): drop the binding of the key. -/
def dremove : List (String × String) → String → List (String × String)
  | [], _ => []
  | (k', v') :: rest, k => if k' = k then rest else (k', v') :: dremove rest k

/-- Python `d.update(upd)`: fold every binding of `upd` into `d`. -/
def dmerge (d upd : List (String × String)) : List (String × String) :=
  upd.foldl (fun acc kv => dinsert acc kv.1 kv.2) d

/-- Python truthiness of an optional string (`a or b` falls through on
`None` and on the empty string). -/
def pyOr (a b : Option String) : Option String :=
  match a with
  | none => b
  | some s => if s = "" then b else some s

/-- Python `str(token)` on an optional token: `str(None) == "None"`. -/
def pyStr (t : Option String) : String :=
  match t with
  | none => "None"
  | some s => s

/-- Decimal digit value of a character, if it is one. -/
def decDigit (c : Char) : Option Nat :=
  if 48 ≤ c.toNat ∧ c.toNat ≤ 57 then some (c.toNat - 48) else none

/-- Accumulating decimal reading of a character list. -/
def decNatAux : List Char → Nat → Option Nat
  | [], acc => some acc
  | c :: cs, acc =>
    match decDigit c with
    | some dg => decNatAux cs (acc * 10 + dg)
    | none => none

/-- Python `int(s)` on the strings the flows feed it (decimal integers,
optionally negative); the model evaluates to `0` where Python would raise
`ValueError`, a case no flow path reaches with well-formed provider
data. -/
def pyInt (s : String) : Int :=
  match s.toList with
  | '-' :: cs =>
    if cs = [] then 0 else
      match decNatAux cs 0 with
      | some n => -(n : Int)
      | none => 0
  | cs =>
    if cs = [] then 0 else
      match decNatAux cs 0 with
      | some n => (n : Int)
      | none => 0

/-- Uppercase hexadecimal digit, as `urllib` percent-escapes use. -/
def hexDigit (n : Nat) : Char :=
  if n < 10 then Char.ofNat (48 + n) else Char.ofNat (55 + n)

/-- `urllib.quote_plus` on one character: letters, digits and `_.-` are
kept, a space becomes `+`, everything else becomes `%XX`. -/
def quotePlusChar (c : Char) : String :=
  if c.isAlphanum ∨ c = '_' ∨ c = '.' ∨ c = '-' then String.singleton c
  else if c = ' ' then "+"
  else "%" ++ String.singleton (hexDigit (c.toNat / 16))
          ++ String.singleton (hexDigit (c.toNat % 16))

/-- `urllib.quote_plus` on a string. -/
def quote_plus (s : String) : String :=
  String.join (s.toList.map quotePlusChar)

/-- `urllib.urlencode`: `quote_plus` each key and value, join with `&`. -/
def urlencode (params : List (String × String)) : String :=
  String.intercalate "&" (params.map (fun kv => quote_plus kv.1 ++ "=" ++ quote_plus kv.2))

/-- `BaseAccess.get_params`: add the joined scope (when any scope URLs are
configured) and url-encode the parameter dict. -/
def get_params (scope_urls : List String) (params : List (String × String)) : String :=
  let params :=
    if scope_urls ≠ [] then dinsert params "scope" (String.intercalate " " scope_urls)
    else params
  urlencode params

/-- Outcome of `BaseAccess.make_api_call`, polymorphic in the value types
produced by the external JSON (`J`) and XML (`X`) parsers.  `serviceFail`
carries the optional content attached to the `ServiceFail` exception. -/
inductive ApiResult (J X : Type) where
  | notAuthorized
  | serviceFail (reason : String) (content : Option String)
  | raw (content : String)
  | json (v : J)
  | xml (v : X)
  | unsupportedKind
  deriving DecidableEq

/-- Trace of one `make_api_call` invocation: whether `_make_api_call` was
dispatched, the token it received, and the final outcome. -/
structure ApiCallTrace (J X : Type) where
  dispatched : Bool
  dispatchToken : Option String
  result : ApiResult J X
  deriving DecidableEq

/-- `BaseAccess.make_api_call`: resolve the effective token with Python
`or` over the explicit argument and the stored `access_token` attribute,
dispatch to `_make_api_call` (modelled by `respOf`, the variant dispatch
returning the `(status, content)` pair for the effective token), then
normalize: status `"401"` raises `NotAuthorized`; empty content raises
`ServiceFail "no content"`; `kind` selects raw/json/xml handling, any
other kind raises the unsupported-kind error. -/
def make_api_call {J X : Type} (kind : String) (token stored : Option String)
    (respOf : Option String → String × String)
    (jsonParse : String → Option J) (xmlParse : String → X) : ApiCallTrace J X :=
  let tok := pyOr token stored
  let rc := respOf tok
  let status := rc.1
  let content := rc.2
  let result : ApiResult J X :=
    if status = "401" then .notAuthorized
    else if content = "" then .serviceFail "no content" none
    else if kind = "raw" then .raw content
    else if kind = "json" then
      match jsonParse content with
      | some v => .json v
      | none => .serviceFail "JSON parse error" (some content)
    else if kind = "xml" then .xml (xmlParse content)
    else .unsupportedKind
  ⟨true, tok, result⟩

/-- Outcome of `OAuthAccess.get_tokens` (OAuth1 step 1): either the
returned mapping (whose values are `token.get(...)` results, so possibly
`None`) or the generic `Exception("Invalid response %s.")`. -/
inductive GetTokensResult where
  | ok (mapping : List (String × Option String))
  | invalidResponse (status : String)
  deriving DecidableEq

/-- The OAuth1 flow's mutable token attributes (`oauth_token`,
`oauth_token_secret`); `none` models an unset/`None` attribute. -/
structure OAuth1State where
  oauth_token : Option String
  oauth_token_secret : Option String
  deriving DecidableEq

/-- `OAuthAccess.get_tokens`: require status `'200'` (else raise the
generic invalid-response error, leaving the state untouched); otherwise
parse the url-encoded body (`qsParse` models `urlparse.parse_qsl` plus
`dict`), store `oauth_token`/`oauth_token_secret` via `.get`, and return
the mapping of both. -/
def oauth1_get_tokens (st : OAuth1State) (respStatus : String) (content : String)
    (qsParse : String → List (String × String)) : GetTokensResult × OAuth1State :=
  if respStatus ≠ "200" then (.invalidResponse respStatus, st)
  else
    let token := qsParse content
    let ot := dlookup token "oauth_token"
    let ots := dlookup token "oauth_token_secret"
    (.ok [("oauth_token", ot), ("oauth_token_secret", ots)], ⟨ot, ots⟩)

/-- `OAuth2Access.get_auth_params`: `client_id`, `redirect_uri`,
`response_type=code`, updated with any configured extra auth params. -/
def oauth2_get_auth_params (consumer_key callback_url : String)
    (extra_auth_params : List (String × String)) : List (String × String) :=
  let params := [("client_id", consumer_key), ("redirect_uri", callback_url),
                 ("response_type", "code")]
  if extra_auth_params ≠ [] then dmerge params extra_auth_params else params

/-- `OAuth2Access.get_auth_url`: pure concatenation of the authorize
endpoint with the url-encoded auth params — no transport call appears in
the source method. -/
def oauth2_get_auth_url (authorize_url consumer_key callback_url : String)
    (scope_urls : List String) (extra_auth_params : List (String × String)) : String :=
  authorize_url ++ "?" ++
    get_params scope_urls (oauth2_get_auth_params consumer_key callback_url extra_auth_params)

/-- Modelled from the spec: `OAuth20Token` lives in the
`oauth_access.utils` collaborator module (absent from `src/`); per the
spec it is the OAuth2 token bundle `{access_token, refresh_token,
expires_in}`, stored as given with no further interpretation. -/
structure OAuth20Token where
  access_token : String
  refresh_token : Option String
  token_expiry : Option Int
  deriving DecidableEq

/-- The parsed body of the OAuth2 code-exchange response:
`json.loads(content)` first, falling back to
`dict(urlparse.parse_qsl(content))` when JSON parsing fails. -/
def oauth2_parse_body (content : String)
    (jsonParse : String → Option (List (String × String)))
    (qsParse : String → List (String × String)) : List (String × String) :=
  match jsonParse content with
  | some d => d
  | none => qsParse content

/-- The `expires`/`expires_in` normalization in
`OAuth2Access.receive_access_tokens`: when the dict is truthy and holds
an `expires` key, pop it and assign its value to `expires_in`. -/
def normalize_expires (d : List (String × String)) : List (String × String) :=
  if d ≠ [] ∧ (dlookup d "expires").isSome then
    dinsert (dremove d "expires") "expires_in" ((dlookup d "expires").getD "")
  else d

/-- The token bundle `receive_access_tokens` builds from the normalized
dict on success: `d['access_token']`, `d.get('refresh_token')`, and
`int(d['expires_in'])` when present. -/
def mkOAuth20Token (d : List (String × String)) : OAuth20Token :=
  ⟨(dlookup d "access_token").getD "", dlookup d "refresh_token",
   (dlookup d "expires_in").map pyInt⟩

/-- Outcome of `OAuth2Access.receive_access_tokens`: the silent `None`
return when no code is set, the stored bundle on success, or the
`MissingToken` exception. -/
inductive ReceiveResult where
  | notReady
  | success (tok : OAuth20Token)
  | missingToken
  deriving DecidableEq

/-- Trace of one `receive_access_tokens` invocation: the outcome, whether
the POST to the access-token endpoint was issued, and the flow's stored
`access_token` attribute afterwards. -/
structure ReceiveTrace where
  result : ReceiveResult
  requestMade : Bool
  newAccessToken : Option OAuth20Token
  deriving DecidableEq

/-- `OAuth2Access.receive_access_tokens`: with no (or a falsy) `code`
attribute the method body is skipped entirely — no request, no error,
`None` returned.  With a code, POST to the access-token endpoint
(modelled by its `(status, content)` outcome), parse the body
JSON-then-querystring, normalize `expires` to `expires_in`, and require
status 200 together with an `access_token` key: on success store and
return the bundle, otherwise raise `MissingToken` leaving the stored
token unchanged. -/
def oauth2_receive_access_tokens (code : Option String) (prev : Option OAuth20Token)
    (respStatus : Nat) (content : String)
    (jsonParse : String → Option (List (String × String)))
    (qsParse : String → List (String × String)) : ReceiveTrace :=
  match code with
  | none => ⟨.notReady, false, prev⟩
  | some c =>
    if c = "" then ⟨.notReady, false, prev⟩
    else
      let d := normalize_expires (oauth2_parse_body content jsonParse qsParse)
      if respStatus = 200 ∧ (dlookup d "access_token").isSome then
        let tok := mkOAuth20Token d
        ⟨.success tok, true, some tok⟩
      else
        ⟨.missingToken, true, prev⟩

/-- The request `OAuth2Access._make_api_call` hands to the transport:
final URL, method, and the url-encoded body for POSTs (`none` for GETs).
The multipart branch (POST with files) delegates header/body construction
to the external `get_headers_and_body` collaborator and is modelled by
the `multipart` parameter. -/
structure OutgoingRequest where
  url : String
  method : String
  body : Option String
  deriving DecidableEq

/-- The parameter dict `OAuth2Access._make_api_call` builds for both GET
and POST: `{"access_token": str(token)}` updated afterwards with the
caller-supplied `params` mapping when one is given. -/
def oauth2_api_params (token : Option String)
    (callerParams : Option (List (String × String))) : List (String × String) :=
  let params := [("access_token", pyStr token)]
  match callerParams with
  | some ps => dmerge params ps
  | none => params

/-- `OAuth2Access._make_api_call`: bearer-style token injection.  POST
without files url-encodes the merged params as the body; POST with files
uses the multipart collaborator's body; any other method appends the
merged params to the URL as a query string. -/
def oauth2_make_api_call (url : String) (token : Option String) (method : String)
    (callerParams : Option (List (String × String))) (hasFiles : Bool)
    (multipart : List (String × String) → String) : OutgoingRequest :=
  let params := oauth2_api_params token callerParams
  if method = "POST" then
    if ¬ hasFiles then ⟨url, method, some (urlencode params)⟩
    else ⟨url, method, some (multipart params)⟩
  else
    ⟨url ++ "?" ++ urlencode params, method, none⟩

/-! ## Dictionary lemmas -/

theorem dlookup_dinsert_self (d : List (String × String)) (k v : String) :
    dlookup (dinsert d k v) k = some v := by
  induction d with
  | nil => simp [dinsert, dlookup]
  | cons kv rest ih =>
    obtain ⟨a, b⟩ := kv
    by_cases h : a = k
    · simp [dinsert, dlookup, h]
    · simp [dinsert, dlookup, h, ih]

theorem dlookup_dinsert_ne (d : List (String × String)) (k' v k : String) (h : k' ≠ k) :
    dlookup (dinsert d k' v) k = dlookup d k := by
  induction d with
  | nil => simp [dinsert, dlookup, h]
  | cons kv rest ih =>
    obtain ⟨a, b⟩ := kv
    by_cases ha : a = k'
    · subst ha
      simp [dinsert, dlookup, h]
    · simp only [dinsert, if_neg ha]
      by_cases hk : a = k
      · simp [dlookup, hk]
      · simp [dlookup, hk, ih]

theorem dlookup_dremove_ne (d : List (String × String)) (k' k : String) (h : k' ≠ k) :
    dlookup (dremove d k') k = dlookup d k := by
  induction d with
  | nil => simp [dremove]
  | cons kv rest ih =>
    obtain ⟨a, b⟩ := kv
    by_cases ha : a = k'
    · subst ha
      simp [dremove, dlookup, h]
    · simp only [dremove, if_neg ha]
      by_cases hk : a = k
      · simp [dlookup, hk]
      · simp [dlookup, hk, ih]

theorem dmerge_nil (d : List (String × String)) : dmerge d [] = d := rfl

theorem dmerge_cons (d : List (String × String)) (kv : String × String)
    (ps : List (String × String)) :
    dmerge d (kv :: ps) = dmerge (dinsert d kv.1 kv.2) ps := rfl

theorem dlookup_dmerge_not_mem (d ps : List (String × String)) (k : String)
    (h : k ∉ ps.map Prod.fst) :
    dlookup (dmerge d ps) k = dlookup d k := by
  induction ps generalizing d with
  | nil => rfl
  | cons kv rest ih =>
    simp only [List.map_cons, List.mem_cons] at h
    push_neg at h
    rw [dmerge_cons, ih _ h.2, dlookup_dinsert_ne _ _ _ _ (Ne.symm h.1)]

theorem dlookup_dmerge_lookup (d ps : List (String × String)) (k v : String)
    (hnd : (ps.map Prod.fst).Nodup) (h : dlookup ps k = some v) :
    dlookup (dmerge d ps) k = some v := by
  induction ps generalizing d with
  | nil => simp [dlookup] at h
  | cons kv rest ih =>
    obtain ⟨a, b⟩ := kv
    simp only [List.map_cons, List.nodup_cons] at hnd
    by_cases ha : a = k
    · subst ha
      have hb : b = v := by simpa [dlookup] using h
      subst hb
      rw [dmerge_cons, dlookup_dmerge_not_mem _ _ _ hnd.1, dlookup_dinsert_self]
    · have h' : dlookup rest k = some v := by simpa [dlookup, ha] using h
      rw [dmerge_cons]
      exact ih _ hnd.2 h'

theorem dlookup_normalize_expires_other (d : List (String × String)) (k : String)
    (h1 : k ≠ "expires") (h2 : k ≠ "expires_in") :
    dlookup (normalize_expires d) k = dlookup d k := by
  unfold normalize_expires
  split
  · rw [dlookup_dinsert_ne _ _ _ _ (Ne.symm h2), dlookup_dremove_ne _ _ _ (Ne.symm h1)]
  · rfl

/-! ## Claim theorems -/

/-- C1 (counterexample): with no explicit token and no stored access
token, `make_api_call` does not fail before dispatch: at kind `"raw"`
with a `200`/`"hi"` response, the call dispatches to `_make_api_call`
(with a `None` token) and returns the raw content — no
`MissingToken`-equivalent error is raised. -/
theorem make_api_call_no_token_counterexample :
    make_api_call "raw" none none (fun _ => ("200", "hi"))
        (fun _ => (none : Option Unit)) (fun _ => ())
      = ⟨true, none, .raw "hi"⟩ := rfl

/-- C1 (amended): if `make_api_call` is invoked with no explicit token
argument and no access token stored on the flow instance, no
MissingToken-equivalent error is raised; the call always dispatches to
`_make_api_call`, passing a `None` token, and proceeds with the normal
response handling. -/
theorem make_api_call_no_token_dispatches {J X : Type} (kind : String)
    (respOf : Option String → String × String)
    (jsonParse : String → Option J) (xmlParse : String → X) :
    (make_api_call kind none none respOf jsonParse xmlParse).dispatched = true ∧
    (make_api_call kind none none respOf jsonParse xmlParse).dispatchToken = none :=
  ⟨rfl, rfl⟩

/-- C2: for every kind value and every response content (including empty
content), if `_make_api_call` returns a response whose status is `"401"`,
`make_api_call` fails with `NotAuthorized`; the status check precedes the
emptiness check and any parsing. -/
theorem make_api_call_401_notAuthorized {J X : Type} (kind : String)
    (token stored : Option String) (respOf : Option String → String × String)
    (jsonParse : String → Option J) (xmlParse : String → X)
    (h : (respOf (pyOr token stored)).1 = "401") :
    (make_api_call kind token stored respOf jsonParse xmlParse).result
      = .notAuthorized := by
  simp [make_api_call, h]

theorem make_api_call_401_notAuthorized_witness :
    ((fun _ => (("401" : String), "")) (pyOr none (some "tok"))).1 = "401" ∧
    (make_api_call "json" none (some "tok") (fun _ => ("401", ""))
        (fun _ => (none : Option Unit)) (fun _ => ())).result
      = ApiResult.notAuthorized :=
  ⟨rfl, make_api_call_401_notAuthorized "json" none (some "tok") _ _ _ rfl⟩

/-- C7: for every non-401 response with non-empty content that is not
valid JSON, `make_api_call` with kind `"json"` fails with `ServiceFail`
whose reason is `"JSON parse error"` and which carries the original
response content. -/
theorem make_api_call_json_parse_error {J X : Type}
    (token stored : Option String) (respOf : Option String → String × String)
    (jsonParse : String → Option J) (xmlParse : String → X)
    (hstatus : (respOf (pyOr token stored)).1 ≠ "401")
    (hcontent : (respOf (pyOr token stored)).2 ≠ "")
    (hparse : jsonParse (respOf (pyOr token stored)).2 = none) :
    (make_api_call "json" token stored respOf jsonParse xmlParse).result
      = .serviceFail "JSON parse error" (some (respOf (pyOr token stored)).2) := by
  simp [make_api_call, hstatus, hcontent, hparse]

theorem make_api_call_json_parse_error_witness :
    ((fun _ => (("200" : String), "not json")) (pyOr (some "t") none)).1 ≠ "401" ∧
    ((fun _ => (("200" : String), "not json")) (pyOr (some "t") none)).2 ≠ "" ∧
    (make_api_call "json" (some "t") none (fun _ => ("200", "not json"))
        (fun _ => (none : Option Unit)) (fun _ => ())).result
      = ApiResult.serviceFail "JSON parse error" (some "not json") :=
  ⟨by decide, by decide,
   make_api_call_json_parse_error (some "t") none _ _ _ (by decide) (by decide) rfl⟩

/-- C6: an OAuth2 flow with authorize URL `https://p.example/auth`,
consumer key `abc`, callback URL `https://app.example/cb` and no scope or
extra auth params yields exactly
`https://p.example/auth?client_id=abc&redirect_uri=https%3A%2F%2Fapp.example%2Fcb&response_type=code`
from `get_auth_url`; the function is pure URL construction (no transport
call appears in the model or the source method). -/
theorem oauth2_get_auth_url_example :
    oauth2_get_auth_url "https://p.example/auth" "abc" "https://app.example/cb" [] []
      = "https://p.example/auth?client_id=abc&redirect_uri=https%3A%2F%2Fapp.example%2Fcb&response_type=code" := by
  rfl

/-- C8: calling `receive_access_tokens` on an OAuth2 flow with no
authorization code supplied is a no-op: it returns the distinct
"not ready" outcome (`None` in the source), issues no network request,
raises no error, and leaves the stored token state unchanged. -/
theorem oauth2_receive_no_code_noop (prev : Option OAuth20Token) (respStatus : Nat)
    (content : String) (jsonParse : String → Option (List (String × String)))
    (qsParse : String → List (String × String)) :
    oauth2_receive_access_tokens none prev respStatus content jsonParse qsParse
      = ⟨.notReady, false, prev⟩ := rfl

/-- Success branch of the code exchange: status 200 with `access_token`
present in the parsed body stores and returns the bundle built from the
normalized dict. -/
theorem oauth2_receive_success (c : String) (hc : c ≠ "")
    (prev : Option OAuth20Token) (respStatus : Nat) (content : String)
    (jsonParse : String → Option (List (String × String)))
    (qsParse : String → List (String × String)) (d : List (String × String))
    (hd : oauth2_parse_body content jsonParse qsParse = d)
    (h200 : respStatus = 200) (hat : (dlookup d "access_token").isSome) :
    oauth2_receive_access_tokens (some c) prev respStatus content jsonParse qsParse
      = ⟨.success (mkOAuth20Token (normalize_expires d)), true,
         some (mkOAuth20Token (normalize_expires d))⟩ := by
  have hat' : dlookup (normalize_expires d) "access_token" = dlookup d "access_token" :=
    dlookup_normalize_expires_other d "access_token" (by decide) (by decide)
  have hcond : respStatus = 200 ∧
      (dlookup (normalize_expires (oauth2_parse_body content jsonParse qsParse))
        "access_token").isSome := by
    rw [hd, hat']; exact ⟨h200, hat⟩
  simp [oauth2_receive_access_tokens, hc, hcond, hd]
  rw [hat']
  exact Option.isSome_iff_ne_none.mp hat

/-- C3: for every OAuth2 code exchange where a code is present, a non-200
status or a parsed body lacking `access_token` fails with `MissingToken`
and leaves the stored access token unchanged; status 200 with
`access_token` present constructs and stores the token bundle. -/
theorem oauth2_receive_code_exchange (c : String) (hc : c ≠ "")
    (prev : Option OAuth20Token) (respStatus : Nat) (content : String)
    (jsonParse : String → Option (List (String × String)))
    (qsParse : String → List (String × String)) (d : List (String × String))
    (hd : oauth2_parse_body content jsonParse qsParse = d) :
    ((respStatus ≠ 200 ∨ dlookup d "access_token" = none) →
      oauth2_receive_access_tokens (some c) prev respStatus content jsonParse qsParse
        = ⟨.missingToken, true, prev⟩) ∧
    ((respStatus = 200 ∧ (dlookup d "access_token").isSome) →
      oauth2_receive_access_tokens (some c) prev respStatus content jsonParse qsParse
        = ⟨.success (mkOAuth20Token (normalize_expires d)), true,
           some (mkOAuth20Token (normalize_expires d))⟩) := by
  have hat : dlookup (normalize_expires d) "access_token" = dlookup d "access_token" :=
    dlookup_normalize_expires_other d "access_token" (by decide) (by decide)
  constructor
  · intro hfail
    have hcond : ¬ (respStatus = 200 ∧
        (dlookup (normalize_expires (oauth2_parse_body content jsonParse qsParse))
          "access_token").isSome) := by
      rw [hd, hat]
      rcases hfail with h | h
      · exact fun hc2 => h hc2.1
      · rw [h]
        exact fun hc2 => by simpa using hc2.2
    simp [oauth2_receive_access_tokens, hc, hcond]
  · intro hok
    exact oauth2_receive_success c hc prev respStatus content jsonParse qsParse d hd
      hok.1 hok.2

theorem oauth2_receive_code_exchange_witness :
    oauth2_receive_access_tokens (some "z") none 500 "{}"
        (fun _ => some []) (fun _ => []) = ⟨.missingToken, true, none⟩ ∧
    oauth2_receive_access_tokens (some "z") none 200 "b"
        (fun _ => some [("access_token", "tok")]) (fun _ => [])
      = ⟨.success ⟨"tok", none, none⟩, true, some ⟨"tok", none, none⟩⟩ :=
  ⟨(oauth2_receive_code_exchange "z" (by decide) none 500 "{}"
      (fun _ => some []) (fun _ => []) [] rfl).1 (Or.inl (by decide)),
   (oauth2_receive_code_exchange "z" (by decide) none 200 "b"
      (fun _ => some [("access_token", "tok")]) (fun _ => [])
      [("access_token", "tok")] rfl).2 ⟨rfl, by decide⟩⟩

/-- C5: for every OAuth2 code-exchange response whose parsed body holds
`expires: 3600` and no `expires_in`, the stored bundle's expiry is the
integer 3600 — `expires` is renamed to `expires_in` before the bundle is
built. -/
theorem oauth2_receive_expires_3600 (c : String) (hc : c ≠ "")
    (prev : Option OAuth20Token) (content : String)
    (jsonParse : String → Option (List (String × String)))
    (qsParse : String → List (String × String)) (d : List (String × String))
    (hd : oauth2_parse_body content jsonParse qsParse = d)
    (hexp : dlookup d "expires" = some "3600")
    (_hnoin : dlookup d "expires_in" = none)
    (hat : (dlookup d "access_token").isSome) :
    ∃ tok : OAuth20Token,
      oauth2_receive_access_tokens (some c) prev 200 content jsonParse qsParse
        = ⟨.success tok, true, some tok⟩ ∧ tok.token_expiry = some 3600 := by
  refine ⟨mkOAuth20Token (normalize_expires d), ?_, ?_⟩
  · exact oauth2_receive_success c hc prev 200 content jsonParse qsParse d hd rfl hat
  · have hne : d ≠ [] := by
      intro h; rw [h] at hexp; simp [dlookup] at hexp
    have hnorm : normalize_expires d
        = dinsert (dremove d "expires") "expires_in" "3600" := by
      unfold normalize_expires
      rw [hexp]
      simp [hne]
    simp [mkOAuth20Token, hnorm, dlookup_dinsert_self]
    decide

theorem oauth2_receive_expires_3600_witness :
    ∃ tok : OAuth20Token,
      oauth2_receive_access_tokens (some "z") none 200 "b"
          (fun _ => some [("access_token", "tok"), ("expires", "3600")]) (fun _ => [])
        = ⟨.success tok, true, some tok⟩ ∧ tok.token_expiry = some 3600 :=
  oauth2_receive_expires_3600 "z" (by decide) none "b"
    (fun _ => some [("access_token", "tok"), ("expires", "3600")]) (fun _ => [])
    [("access_token", "tok"), ("expires", "3600")] rfl (by decide) (by decide) (by decide)

/-- C9: for every OAuth2 code-exchange response whose parsed body holds
both `expires` and `expires_in`, the value of `expires` replaces the
value of `expires_in` (the original `expires_in` value is discarded)
before the bundle's expiry is computed. -/
theorem oauth2_expires_overrides_expires_in (c : String) (hc : c ≠ "")
    (prev : Option OAuth20Token) (content : String)
    (jsonParse : String → Option (List (String × String)))
    (qsParse : String → List (String × String)) (d : List (String × String))
    (e e' : String)
    (hd : oauth2_parse_body content jsonParse qsParse = d)
    (hexp : dlookup d "expires" = some e)
    (_hin : dlookup d "expires_in" = some e')
    (hat : (dlookup d "access_token").isSome) :
    dlookup (normalize_expires d) "expires_in" = some e ∧
    ∃ tok : OAuth20Token,
      oauth2_receive_access_tokens (some c) prev 200 content jsonParse qsParse
        = ⟨.success tok, true, some tok⟩ ∧ tok.token_expiry = some (pyInt e) := by
  have hne : d ≠ [] := by
    intro h; rw [h] at hexp; simp [dlookup] at hexp
  have hnorm : normalize_expires d = dinsert (dremove d "expires") "expires_in" e := by
    unfold normalize_expires
    rw [hexp]
    simp [hne]
  have hlook : dlookup (normalize_expires d) "expires_in" = some e := by
    rw [hnorm, dlookup_dinsert_self]
  refine ⟨hlook, mkOAuth20Token (normalize_expires d), ?_, ?_⟩
  · exact oauth2_receive_success c hc prev 200 content jsonParse qsParse d hd rfl hat
  · simp [mkOAuth20Token, hlook]

theorem oauth2_expires_overrides_expires_in_witness :
    dlookup (normalize_expires
        [("access_token", "tok"), ("expires", "7200"), ("expires_in", "3600")])
      "expires_in" = some "7200" ∧
    ∃ tok : OAuth20Token,
      oauth2_receive_access_tokens (some "z") none 200 "b"
          (fun _ => some
            [("access_token", "tok"), ("expires", "7200"), ("expires_in", "3600")])
          (fun _ => [])
        = ⟨.success tok, true, some tok⟩ ∧ tok.token_expiry = some (pyInt "7200") :=
  oauth2_expires_overrides_expires_in "z" (by decide) none "b"
    (fun _ => some
      [("access_token", "tok"), ("expires", "7200"), ("expires_in", "3600")])
    (fun _ => [])
    [("access_token", "tok"), ("expires", "7200"), ("expires_in", "3600")]
    "7200" "3600" rfl (by decide) (by decide) (by decide)

/-- C4: for every OAuth1 request-token response, a 200 status with a
well-formed url-encoded body carrying the `oauth_token` /
`oauth_token_secret` pair makes `get_tokens` store exactly that pair and
return an equal mapping; any non-200 status fails with the generic
invalid-response error and stores nothing. -/
theorem oauth1_get_tokens_spec (st : OAuth1State) (respStatus : String)
    (content : String) (qsParse : String → List (String × String)) (t s : String) :
    (respStatus = "200" →
      dlookup (qsParse content) "oauth_token" = some t →
      dlookup (qsParse content) "oauth_token_secret" = some s →
      oauth1_get_tokens st respStatus content qsParse
        = (.ok [("oauth_token", some t), ("oauth_token_secret", some s)],
           ⟨some t, some s⟩)) ∧
    (respStatus ≠ "200" →
      oauth1_get_tokens st respStatus content qsParse
        = (.invalidResponse respStatus, st)) := by
  constructor
  · intro h200 ht hs
    simp [oauth1_get_tokens, h200, ht, hs]
  · intro hne
    simp [oauth1_get_tokens, hne]

theorem oauth1_get_tokens_spec_witness :
    oauth1_get_tokens ⟨none, none⟩ "200" "oauth_token=a&oauth_token_secret=b"
        (fun _ => [("oauth_token", "a"), ("oauth_token_secret", "b")])
      = (.ok [("oauth_token", some "a"), ("oauth_token_secret", some "b")],
         ⟨some "a", some "b"⟩) ∧
    oauth1_get_tokens ⟨some "x", some "y"⟩ "500" "oops" (fun _ => [])
      = (.invalidResponse "500", ⟨some "x", some "y"⟩) :=
  ⟨(oauth1_get_tokens_spec ⟨none, none⟩ "200" "oauth_token=a&oauth_token_secret=b"
      (fun _ => [("oauth_token", "a"), ("oauth_token_secret", "b")]) "a" "b").1
      rfl (by decide) (by decide),
   (oauth1_get_tokens_spec ⟨some "x", some "y"⟩ "500" "oops" (fun _ => []) "a" "b").2
      (by decide)⟩

/-- C10: in `OAuth2Access._make_api_call`, for both GET and POST, a
caller-supplied `params` mapping holding an `access_token` key has its
value win over `str(token)` in the merged parameter dict (caller params
are merged after the token parameter is set), and that merged dict is
what reaches the outgoing query string (GET) or url-encoded body (POST
without files). -/
theorem oauth2_caller_access_token_overrides (url : String) (token : Option String)
    (ps : List (String × String)) (v : String) (multipart : List (String × String) → String)
    (hnd : (ps.map Prod.fst).Nodup)
    (hv : dlookup ps "access_token" = some v) :
    dlookup (oauth2_api_params token (some ps)) "access_token" = some v ∧
    oauth2_make_api_call url token "GET" (some ps) false multipart
      = ⟨url ++ "?" ++ urlencode (oauth2_api_params token (some ps)), "GET", none⟩ ∧
    oauth2_make_api_call url token "POST" (some ps) false multipart
      = ⟨url, "POST", some (urlencode (oauth2_api_params token (some ps)))⟩ := by
  refine ⟨?_, rfl, rfl⟩
  unfold oauth2_api_params
  exact dlookup_dmerge_lookup _ ps "access_token" v hnd hv

theorem oauth2_caller_access_token_overrides_witness :
    dlookup (oauth2_api_params (some "flowtok") (some [("access_token", "override")]))
      "access_token" = some "override" ∧
    oauth2_make_api_call "https://api.example/r" (some "flowtok") "GET"
        (some [("access_token", "override")]) false (fun _ => "")
      = ⟨"https://api.example/r?" ++
          urlencode (oauth2_api_params (some "flowtok")
            (some [("access_token", "override")])), "GET", none⟩ ∧
    oauth2_make_api_call "https://api.example/r" (some "flowtok") "POST"
        (some [("access_token", "override")]) false (fun _ => "")
      = ⟨"https://api.example/r", "POST",
         some (urlencode (oauth2_api_params (some "flowtok")
           (some [("access_token", "override")])))⟩ := by
  have h := oauth2_caller_access_token_overrides "https://api.example/r" (some "flowtok")
    [("access_token", "override")] "override" (fun _ => "") (by decide) (by decide)
  exact ⟨h.1, h.2.1, h.2.2⟩

end OauthAccess
